import Mathlib

/-!
Shallow embedding of the single notebook of the ML-Insights repository
(`mnist_starter_pytorch.ipynb`).  The notebook builds a pixel-normalization
transform (`ToTensor` followed by `Normalize((0.5,), (0.5,))`), demonstrates
conversion between PyTorch and TensorFlow int32 tensors, constructs MNIST
train/test datasets and data loaders, and defines a two-layer fully-connected
module `LinearModel` whose `forward` body computes
`fc2(relu(fc1 x))` but never returns it (Python's implicit `return None`).

Pixel values and layer arithmetic are modelled over `ℚ`; dense layers are
modelled dynamically (lists with runtime shape checks returning `Except`,
mirroring the library's runtime shape errors); the model object is threaded
explicitly through `forward` so that (absence of) mutation is visible.
-/

namespace MnistStarter

/-- Embedding of `transforms.ToTensor()` on a single 8-bit pixel value:
the intensity is divided by 255, mapping 0–255 into 0–1. -/
def toTensorPixel (v : ℚ) : ℚ := v / 255

/-- Embedding of `transforms.Normalize((mean,), (std,))` on a single value:
the value is shifted by the mean and divided by the standard deviation. -/
def normalizePixel (mean std t : ℚ) : ℚ := (t - mean) / std

/-- The composed transform of the notebook:
`transforms.Compose([transforms.ToTensor(), transforms.Normalize((0.5,), (0.5,))])`,
acting on one pixel intensity. -/
def transformPixel (v : ℚ) : ℚ := normalizePixel (1/2) (1/2) (toTensorPixel v)

/-- The composed transform applied to a whole single-channel image,
represented as a list of rows of pixel intensities. -/
def transformImage (img : List (List ℚ)) : List (List ℚ) :=
  img.map (List.map transformPixel)

/-- The affine map the spec describes for the transform: v ↦ (v/255 − 0.5)/0.5.
Written from the spec's words, to be compared with `transformPixel`. -/
def specAffine (v : ℚ) : ℚ := (v / 255 - 1/2) / (1/2)

/-- Embedding of a `torch.nn.Linear` layer: declared input/output feature
counts together with the weight matrix (one row per output feature) and the
bias vector. -/
structure Linear where
  inFeatures : Nat
  outFeatures : Nat
  weight : List (List ℚ)
  bias : List ℚ

/-- Embedding of the `nn.Linear(inF, outF)` constructor: the library
allocates a weight matrix of `outF` rows of `inF` entries and a bias of
`outF` entries, with externally supplied (randomly initialized) values
given here by the functions `w` and `b`. -/
def Linear.make (inF outF : Nat) (w : Nat → Nat → ℚ) (b : Nat → ℚ) : Linear :=
  { inFeatures := inF
    outFeatures := outF
    weight := (List.range outF).map (fun i => (List.range inF).map (fun j => w i j))
    bias := (List.range outF).map b }

/-- Dot product of two coefficient lists. -/
def dot (a b : List ℚ) : ℚ := (List.zipWith (fun p q => p * q) a b).sum

/-- The shape-mismatch error message the library raises when a linear layer
is applied to an input of the wrong dimension. -/
def shapeErr (gotLen inF outF : Nat) : String :=
  "mat1 and mat2 shapes cannot be multiplied (1x" ++ toString gotLen ++
    " and " ++ toString inF ++ "x" ++ toString outF ++ ")"

/-- Applying a linear layer to an input vector: the library checks the input
dimension against the declared input features and raises a shape error on
mismatch; otherwise it returns `W·x + b`. -/
def applyLinear (l : Linear) (x : List ℚ) : Except String (List ℚ) :=
  if x.length = l.inFeatures then
    Except.ok (List.zipWith (fun row bi => dot row x + bi) l.weight l.bias)
  else
    Except.error (shapeErr x.length l.inFeatures l.outFeatures)

/-- Embedding of `torch.relu` applied elementwise to a vector. -/
def reluVec (x : List ℚ) : List ℚ := x.map (fun v => max v 0)

/-- Embedding of the `LinearModel` module object: it holds the two dense
layers assigned in `__init__` (`self.fc1` and `self.fc2`). -/
structure LinearModel where
  fc1 : Linear
  fc2 : Linear

/-- Embedding of `LinearModel.__init__`: `self.fc1 = nn.Linear(784, 64)` and
`self.fc2 = nn.Linear(64, 10)`, with the layers' randomly initialized
weights and biases supplied externally. -/
def LinearModel.make (w1 : Nat → Nat → ℚ) (b1 : Nat → ℚ)
    (w2 : Nat → Nat → ℚ) (b2 : Nat → ℚ) : LinearModel :=
  { fc1 := Linear.make 784 64 w1 b1
    fc2 := Linear.make 64 10 w2 b2 }

/-- Embedding of `LinearModel.forward`:

    x = torch.relu(self.fc1(x))
    x = self.fc2(x)

The result pairs the final `self` object with either the propagated library
error or the pair (final value of the local variable `x`, returned value).
The body has no `return` statement, so the returned value is `none`
(Python's implicit `return None`); `self` is never assigned to. -/
def LinearModel.forward (m : LinearModel) (x : List ℚ) :
    LinearModel × Except String (List ℚ × Option (List ℚ)) :=
  match applyLinear m.fc1 x with
  | Except.error e => (m, Except.error e)
  | Except.ok y1 =>
    match applyLinear m.fc2 (reluVec y1) with
    | Except.error e => (m, Except.error e)
    | Except.ok y2 => (m, Except.ok (y2, none))

/-- Tensor element dtypes appearing in the conversion cell. -/
inductive DType where
  | int32
  | int64
deriving DecidableEq

/-- Casting an integer to a dtype's representable range: int32 wraps to
32 bits, int64 to 64 bits. -/
def castTo : DType → Int → Int
  | DType.int32, n => (n + 2 ^ 31) % 2 ^ 32 - 2 ^ 31
  | DType.int64, n => (n + 2 ^ 63) % 2 ^ 64 - 2 ^ 63

/-- Embedding of a PyTorch tensor of integers: a dtype and element list. -/
structure TorchTensor where
  dtype : DType
  data : List Int

/-- Embedding of a NumPy integer array: a dtype and element list. -/
structure NpArray where
  dtype : DType
  data : List Int

/-- Embedding of a TensorFlow integer tensor: a dtype and element list. -/
structure TFTensor where
  dtype : DType
  data : List Int

/-- Embedding of `torch.tensor(list, dtype=...)`. -/
def torchTensor (l : List Int) (dt : DType) : TorchTensor :=
  ⟨dt, l.map (castTo dt)⟩

/-- Embedding of `pytorch_tensor.numpy()`: same dtype, same elements. -/
def TorchTensor.numpy (t : TorchTensor) : NpArray := ⟨t.dtype, t.data⟩

/-- Embedding of `tf.convert_to_tensor(numpy_array)`: the dtype is inferred
from the array. -/
def tfConvertToTensor (a : NpArray) : TFTensor := ⟨a.dtype, a.data⟩

/-- Embedding of `tf.constant(list, dtype=...)`. -/
def tfConstant (l : List Int) (dt : DType) : TFTensor :=
  ⟨dt, l.map (castTo dt)⟩

/-- Embedding of `tf_tensor.numpy()`: same dtype, same elements. -/
def TFTensor.numpy (t : TFTensor) : NpArray := ⟨t.dtype, t.data⟩

/-- Embedding of `torch.tensor(numpy_array, dtype=...)`. -/
def torchTensorFromNp (a : NpArray) (dt : DType) : TorchTensor :=
  ⟨dt, a.data.map (castTo dt)⟩

/-- The conversion cell: `pytorch_tensor = torch.tensor([1, 2, 3], dtype=torch.int32)`. -/
def pytorch_tensor0 : TorchTensor := torchTensor [1, 2, 3] DType.int32

/-- The conversion cell: `tf_tensor = tf.convert_to_tensor(pytorch_tensor.numpy())`. -/
def tf_tensor0 : TFTensor := tfConvertToTensor pytorch_tensor0.numpy

/-- The conversion cell: `tf_tensor = tf.constant([1, 2, 3], dtype=tf.int32)`. -/
def tf_tensor1 : TFTensor := tfConstant [1, 2, 3] DType.int32

/-- The conversion cell: `numpy_array = tf_tensor.numpy()`. -/
def numpy_array1 : NpArray := tf_tensor1.numpy

/-- The conversion cell: `pytorch_tensor = torch.tensor(numpy_array, dtype=torch.int32)`. -/
def pytorch_tensor1 : TorchTensor := torchTensorFromNp numpy_array1 DType.int32

/-- Embedding of a `datasets.MNIST(...)` construction: the arguments the
notebook passes (download/cache root, train split flag, download flag, and
the per-image transform object). The image contents themselves are
externally supplied. -/
structure MNISTDataset where
  root : String
  train : Bool
  download : Bool
  transform : List (List ℚ) → List (List ℚ)

/-- The notebook's `train_dataset = datasets.MNIST(root="./data", train=True,
download=True, transform=transform)`. -/
def train_dataset : MNISTDataset :=
  { root := "./data", train := true, download := true, transform := transformImage }

/-- The notebook's `test_dataset = datasets.MNIST(root="./data", train=False,
download=True, transform=transform)`. -/
def test_dataset : MNISTDataset :=
  { root := "./data", train := false, download := true, transform := transformImage }

/-- The notebook's `batch_size = 64`. -/
def batch_size : Nat := 64

/-- Embedding of a `torch.utils.data.DataLoader`: the underlying dataset's
samples, the batch size, and the shuffle flag. -/
structure DataLoader (α : Type) where
  data : List α
  batchSize : Nat
  shuffle : Bool

/-- The notebook's `train_loader = DataLoader(train_dataset, batch_size=batch_size,
shuffle=True)`, parametric in the externally supplied dataset samples. -/
def train_loader {α : Type} (samples : List α) : DataLoader α :=
  { data := samples, batchSize := batch_size, shuffle := true }

/-- The notebook's `test_loader = DataLoader(test_dataset, batch_size=batch_size,
shuffle=False)`, parametric in the externally supplied dataset samples. -/
def test_loader {α : Type} (samples : List α) : DataLoader α :=
  { data := samples, batchSize := batch_size, shuffle := false }

/-- Fuel-indexed chunking of a list into consecutive batches of `n` samples
(the last batch may be shorter); the fuel bounds the recursion depth. -/
def chunksGo {α : Type} (n : Nat) : Nat → List α → List (List α)
  | _, [] => []
  | 0, _ => []
  | Nat.succ fuel, x :: xs => (x :: xs.take (n - 1)) :: chunksGo n fuel (xs.drop (n - 1))

/-- Chunking a list into consecutive batches of `n` samples in dataset index
order, as a sequential (non-shuffling) loader yields them. -/
def chunks {α : Type} (n : Nat) (l : List α) : List (List α) :=
  chunksGo n l.length l

/-- Reordering dataset samples by a permutation of indices, modelling the
random order a shuffling loader draws for one epoch. -/
def permute {α : Type} (perm : List Nat) (samples : List α) : List α :=
  perm.filterMap (fun i => samples[i]?)

/-- One complete iteration over a data loader: a shuffling loader first
reorders the samples by the epoch's random permutation, a non-shuffling
loader uses fixed dataset index order; either way the samples are batched
consecutively by the batch size. -/
def DataLoader.iter {α : Type} (dl : DataLoader α) (perm : List Nat) : List (List α) :=
  if dl.shuffle then chunks dl.batchSize (permute perm dl.data)
  else chunks dl.batchSize dl.data

/-- Claim C1: under the notebook's transform (ToTensor, which divides pixel
values by 255, composed with Normalize((0.5,), (0.5,))), a pixel intensity of
0 is mapped exactly to −1 and a pixel intensity of 255 is mapped exactly
to 1. -/
theorem transform_maps_0_to_neg_one_and_255_to_one :
    transformPixel 0 = -1 ∧ transformPixel 255 = 1 := by
  constructor <;> norm_num [transformPixel, toTensorPixel, normalizePixel]

/-- Claim C2: for every model and input, `LinearModel.forward` returns no
value: either a library error propagates, or the call completes and the
returned value is `none` (Python's implicit `return None`). -/
theorem forward_returns_none (m : LinearModel) (x : List ℚ) :
    (∃ e, (m.forward x).2 = Except.error e) ∨
    (∃ v, (m.forward x).2 = Except.ok (v, none)) := by
  cases h1 : applyLinear m.fc1 x with
  | error e => exact Or.inl ⟨e, by simp [LinearModel.forward, h1]⟩
  | ok y1 =>
    cases h2 : applyLinear m.fc2 (reluVec y1) with
    | error e => exact Or.inl ⟨e, by simp [LinearModel.forward, h1, h2]⟩
    | ok y2 => exact Or.inr ⟨y2, by simp [LinearModel.forward, h1, h2]⟩

/-- Claim C3: whenever both layer applications succeed, the final value
computed inside `LinearModel.forward` (before being discarded) is exactly
`fc2(relu(fc1 x))`: two linear transformations with a single ReLU between
them and nothing after the second layer, and the call returns `none`. -/
theorem forward_final_value_is_fc2_relu_fc1 (m : LinearModel) (x y1 y2 : List ℚ)
    (h1 : applyLinear m.fc1 x = Except.ok y1)
    (h2 : applyLinear m.fc2 (reluVec y1) = Except.ok y2) :
    m.forward x = (m, Except.ok (y2, none)) := by
  simp [LinearModel.forward, h1, h2]

/-- Witness for claim C3 at a concrete one-dimensional model and input. -/
theorem forward_final_value_witness :
    LinearModel.forward ⟨⟨1, 1, [[1]], [0]⟩, ⟨1, 1, [[1]], [0]⟩⟩ [2] =
      (⟨⟨1, 1, [[1]], [0]⟩, ⟨1, 1, [[1]], [0]⟩⟩, Except.ok ([2], none)) :=
  forward_final_value_is_fc2_relu_fc1 ⟨⟨1, 1, [[1]], [0]⟩, ⟨1, 1, [[1]], [0]⟩⟩
    [2] [2] [2] (by norm_num [applyLinear, dot]) (by norm_num [applyLinear, dot, reluVec])

/-- Claim C4: every model built by `LinearModel.__init__` holds exactly the
two dense layers `fc1 : 784 → 64` and `fc2 : 64 → 10`, with weight and bias
shapes matching the declared dimensions, and `fc1`'s output dimension equals
`fc2`'s input dimension. -/
theorem model_make_layer_shapes (w1 : Nat → Nat → ℚ) (b1 : Nat → ℚ)
    (w2 : Nat → Nat → ℚ) (b2 : Nat → ℚ) :
    (LinearModel.make w1 b1 w2 b2).fc1.inFeatures = 28 * 28 ∧
    (LinearModel.make w1 b1 w2 b2).fc1.outFeatures = 64 ∧
    (LinearModel.make w1 b1 w2 b2).fc2.inFeatures = 64 ∧
    (LinearModel.make w1 b1 w2 b2).fc2.outFeatures = 10 ∧
    (LinearModel.make w1 b1 w2 b2).fc1.outFeatures =
      (LinearModel.make w1 b1 w2 b2).fc2.inFeatures ∧
    (LinearModel.make w1 b1 w2 b2).fc1.weight.length = 64 ∧
    (LinearModel.make w1 b1 w2 b2).fc1.weight.map List.length = List.replicate 64 784 ∧
    (LinearModel.make w1 b1 w2 b2).fc1.bias.length = 64 ∧
    (LinearModel.make w1 b1 w2 b2).fc2.weight.length = 10 ∧
    (LinearModel.make w1 b1 w2 b2).fc2.weight.map List.length = List.replicate 10 64 ∧
    (LinearModel.make w1 b1 w2 b2).fc2.bias.length = 10 := by
  have hlen : ∀ (w : Nat → Nat → ℚ) (inF : Nat),
      (List.length ∘ fun i => List.map (fun j => w i j) (List.range inF)) =
        fun _ => inF := by
    intro w inF
    funext i
    simp
  refine ⟨rfl, rfl, rfl, rfl, rfl, ?_, ?_, ?_, ?_, ?_, ?_⟩
  · simp [LinearModel.make, Linear.make]
  · simp only [LinearModel.make, Linear.make, List.map_map, hlen,
      List.map_const', List.length_range]
  · simp [LinearModel.make, Linear.make]
  · simp [LinearModel.make, Linear.make]
  · simp only [LinearModel.make, Linear.make, List.map_map, hlen,
      List.map_const', List.length_range]
  · simp [LinearModel.make, Linear.make]

/-- Claim C5: the transform applied to a whole image preserves the shape,
sends each pixel through the single affine map v ↦ (v/255 − 0.5)/0.5, and
sends every intensity in 0–255 into the range [−1, 1]. -/
theorem transform_image_shape_affine_range (img : List (List ℚ)) :
    (transformImage img).map List.length = img.map List.length ∧
    (∀ (i j : Nat) (v : ℚ), (img[i]?.bind fun row => row[j]?) = some v →
      ((transformImage img)[i]?.bind fun row => row[j]?) = some (specAffine v)) ∧
    (∀ v : ℚ, 0 ≤ v → v ≤ 255 →
      transformPixel v = specAffine v ∧ -1 ≤ transformPixel v ∧ transformPixel v ≤ 1) := by
  refine ⟨?_, ?_, ?_⟩
  · simp [transformImage, List.map_map, Function.comp]
  · intro i j v h
    cases hrow : img[i]? with
    | none =>
      rw [hrow] at h
      simp at h
    | some row =>
      rw [hrow, Option.some_bind] at h
      have himg : (transformImage img)[i]? = some (row.map transformPixel) := by
        simp [transformImage, List.getElem?_map, hrow]
      simp only [himg, Option.some_bind, List.getElem?_map, h, Option.map_some']
      rfl
  · intro v h0 h255
    have he : transformPixel v = (2 * v - 255) / 255 := by
      unfold transformPixel toTensorPixel normalizePixel
      ring
    refine ⟨rfl, ?_, ?_⟩
    · rw [he, le_div_iff₀ (by norm_num : (0:ℚ) < 255)]
      linarith
    · rw [he, div_le_iff₀ (by norm_num : (0:ℚ) < 255)]
      linarith

/-- Witness for claim C5 at the concrete image [[0, 255]] and pixel 128. -/
theorem transform_image_witness :
    (transformImage [[0, 255]]).map List.length = [[(0:ℚ), 255]].map List.length ∧
    ((transformImage [[0, 255]])[0]?.bind fun row => row[1]?) = some (specAffine 255) ∧
    (transformPixel 128 = specAffine 128 ∧
      -1 ≤ transformPixel 128 ∧ transformPixel 128 ≤ 1) :=
  ⟨(transform_image_shape_affine_range [[0, 255]]).1,
   (transform_image_shape_affine_range [[0, 255]]).2.1 0 1 255 rfl,
   (transform_image_shape_affine_range [[0, 255]]).2.2 128 (by norm_num) (by norm_num)⟩

/-- Claim C6: the notebook defines no error handling of its own: a shape
error raised by either layer inside `forward` propagates to the caller
unchanged, with the model object untouched; in particular an input whose
dimension is not 784 makes the first layer raise. -/
theorem forward_propagates_library_errors :
    (∀ (m : LinearModel) (x : List ℚ) (e : String),
        applyLinear m.fc1 x = Except.error e →
        m.forward x = (m, Except.error e)) ∧
    (∀ (m : LinearModel) (x y1 : List ℚ) (e : String),
        applyLinear m.fc1 x = Except.ok y1 →
        applyLinear m.fc2 (reluVec y1) = Except.error e →
        m.forward x = (m, Except.error e)) ∧
    (∀ (w1 : Nat → Nat → ℚ) (b1 : Nat → ℚ) (w2 : Nat → Nat → ℚ) (b2 : Nat → ℚ)
        (x : List ℚ), x.length ≠ 784 →
        LinearModel.forward (LinearModel.make w1 b1 w2 b2) x =
          (LinearModel.make w1 b1 w2 b2,
            Except.error (shapeErr x.length 784 64))) := by
  refine ⟨?_, ?_, ?_⟩
  · intro m x e h1
    simp [LinearModel.forward, h1]
  · intro m x y1 e h1 h2
    simp [LinearModel.forward, h1, h2]
  · intro w1 b1 w2 b2 x hx
    have h1 : applyLinear (LinearModel.make w1 b1 w2 b2).fc1 x =
        Except.error (shapeErr x.length 784 64) := by
      simp [applyLinear, LinearModel.make, Linear.make, hx]
    simp [LinearModel.forward, h1]

/-- Witness for claim C6 at concrete small models and a wrongly sized
input for the 784-input model. -/
theorem forward_propagates_errors_witness :
    (LinearModel.forward ⟨⟨1, 1, [[1]], [0]⟩, ⟨1, 1, [[1]], [0]⟩⟩ [] =
      (⟨⟨1, 1, [[1]], [0]⟩, ⟨1, 1, [[1]], [0]⟩⟩, Except.error (shapeErr 0 1 1))) ∧
    (LinearModel.forward ⟨⟨1, 1, [[1]], [0]⟩, ⟨2, 1, [[1, 1]], [0]⟩⟩ [2] =
      (⟨⟨1, 1, [[1]], [0]⟩, ⟨2, 1, [[1, 1]], [0]⟩⟩, Except.error (shapeErr 1 2 1))) ∧
    (LinearModel.forward
        (LinearModel.make (fun _ _ => 0) (fun _ => 0) (fun _ _ => 0) (fun _ => 0)) [] =
      (LinearModel.make (fun _ _ => 0) (fun _ => 0) (fun _ _ => 0) (fun _ => 0),
        Except.error (shapeErr 0 784 64))) :=
  ⟨forward_propagates_library_errors.1 ⟨⟨1, 1, [[1]], [0]⟩, ⟨1, 1, [[1]], [0]⟩⟩ []
      (shapeErr 0 1 1) rfl,
   forward_propagates_library_errors.2.1 ⟨⟨1, 1, [[1]], [0]⟩, ⟨2, 1, [[1, 1]], [0]⟩⟩
      [2] [2] (shapeErr 1 2 1) (by norm_num [applyLinear, dot]) (by norm_num [applyLinear, reluVec]),
   forward_propagates_library_errors.2.2 (fun _ _ => 0) (fun _ => 0) (fun _ _ => 0)
      (fun _ => 0) [] (by decide)⟩

/-- Claim C7: the demonstrated conversions round-trip: the PyTorch int32
tensor [1, 2, 3] converted to TensorFlow via `.numpy()` keeps the same
elements and int32 dtype, and the TensorFlow int32 tensor converted to
NumPy and back to PyTorch keeps the same elements and int32 dtype. -/
theorem tensor_conversion_roundtrips_int32 :
    pytorch_tensor0.dtype = DType.int32 ∧ pytorch_tensor0.data = [1, 2, 3] ∧
    tf_tensor0.dtype = DType.int32 ∧ tf_tensor0.data = pytorch_tensor0.data ∧
    tf_tensor1.dtype = DType.int32 ∧ tf_tensor1.data = [1, 2, 3] ∧
    pytorch_tensor1.dtype = DType.int32 ∧ pytorch_tensor1.data = tf_tensor1.data := by
  decide

/-- Claim C8: calling `forward` does not modify the model object: the
fields `fc1` and `fc2` (all its weights and biases) are the same before and
after the call, on every path. -/
theorem forward_leaves_model_unchanged (m : LinearModel) (x : List ℚ) :
    (m.forward x).1 = m := by
  cases h1 : applyLinear m.fc1 x with
  | error e => simp [LinearModel.forward, h1]
  | ok y1 =>
    cases h2 : applyLinear m.fc2 (reluVec y1) with
    | error e => simp [LinearModel.forward, h1, h2]
    | ok y2 => simp [LinearModel.forward, h1, h2]

/-- Claim C9: both datasets are constructed over the same root "./data",
train with `train=True`, test with `train=False`, both with `download=True`,
and the same transform object is applied to both. -/
theorem datasets_share_root_and_transform :
    train_dataset.root = "./data" ∧ test_dataset.root = "./data" ∧
    train_dataset.root = test_dataset.root ∧
    train_dataset.train = true ∧ test_dataset.train = false ∧
    train_dataset.download = true ∧ test_dataset.download = true ∧
    train_dataset.transform = test_dataset.transform :=
  ⟨rfl, rfl, rfl, rfl, rfl, rfl, rfl, rfl⟩

/-- Claim C10: both loaders use batch size 64; the test loader does not
shuffle, so every complete iteration yields the identical batch sequence in
fixed dataset index order, while the train loader shuffles and can yield a
different order on different iterations. -/
theorem loaders_batchsize_and_shuffle (α : Type) (trainSamples testSamples : List α) :
    (train_loader trainSamples).batchSize = 64 ∧
    (test_loader testSamples).batchSize = 64 ∧
    (train_loader trainSamples).shuffle = true ∧
    (test_loader testSamples).shuffle = false ∧
    (∀ p1 p2 : List Nat, (test_loader testSamples).iter p1 = (test_loader testSamples).iter p2) ∧
    (∀ p : List Nat, (test_loader testSamples).iter p = chunks 64 testSamples) ∧
    (∃ (d : List Nat) (p1 p2 : List Nat),
        (train_loader d).iter p1 ≠ (train_loader d).iter p2) := by
  refine ⟨rfl, rfl, rfl, rfl, fun p1 p2 => rfl, fun p => rfl, ⟨[0, 1], [0, 1], [1, 0], by decide⟩⟩

end MnistStarter
